import Mathlib

/-!
Verification of the session keep-alive controller and peripheral actions of
`dhbw.py` (`Login._init_session`, `Login._login`, `Login._keepalive`,
`Login._logout`, `Login.execute`, `Login.shutdown`, `Login.get_passwd`,
`Login.init`, `check_executable`, `RemoteDesktop`).

The program is embedded shallowly.  The network environment is an oracle:
each HTTP request the program issues either raises
`requests.exceptions.ConnectionError` or yields a response, of which the
program only ever inspects the final URL (after redirects) and the status
code.  `getpass` prompts are an oracle `gp : Nat → String` giving the value
typed at the n-th prompt of the process; a running counter of issued
prompts instruments the credential-retrieval claims.  `sys.exit(c)` is an
`Option Int` exit code; the endless `while True` loop of `Login.execute`
is run for `fuel` iterations.
-/

namespace Dhbw

/-- An HTTP response as the program observes it: the final URL after
following redirects (`response.url`) and the status code. -/
structure Response where
  url : String
  status_code : Nat
deriving DecidableEq

/-- Outcome of one HTTP request: a raised
`requests.exceptions.ConnectionError`, or a received response. -/
inductive ReqResult where
  | connErr : ReqResult
  | ok : Response → ReqResult
deriving DecidableEq

/-- Python's `str.endswith`: suffix test on the character sequence. -/
def strEndswith (s suffix : String) : Bool :=
  List.isSuffixOf suffix.data s.data

/-- `Login._build_url`: `"https://%s/%s" % (self.options.server, target)`. -/
def build_url (server target : String) : String :=
  "https://" ++ server ++ "/" ++ target

/-- Result of one `Login.get_passwd` call: the value returned, the cache
(`self.password`) afterwards, and the number of `getpass` prompts issued
by the process so far. -/
structure PwOut where
  value : String
  cache : Option String
  prompts : Nat
deriving DecidableEq

/-- `Login.get_passwd`: in safe mode, prompt and leave the cache alone;
otherwise prompt and fill the cache when it is `None`, and return the
cached value when it is set.  `gp n` is the value entered at the process's
`n`-th prompt; `prompts` counts the `getpass` calls made so far. -/
def get_passwd (safe_mode : Bool) (gp : Nat → String) (cache : Option String)
    (prompts : Nat) : PwOut :=
  if safe_mode then
    ⟨gp prompts, cache, prompts + 1⟩
  else
    match cache with
    | none => ⟨gp prompts, some (gp prompts), prompts + 1⟩
    | some p => ⟨p, some p, prompts⟩

/-- State of `Login._login` when its retry loop stops: the local `retries`
counter, the `response` variable (`None` until some POST returns), and the
password cache and prompt count. -/
structure LoginOut where
  retries : Nat
  response : Option Response
  cache : Option String
  prompts : Nat
deriving DecidableEq

/-- The retry loop of `Login._login`:
`while retries > 0: try: response = post(login-exec.php, …get_passwd()…);
break except ConnectionError: sleep(30); retries -= 1`.
`posts k` is the outcome of the `k`-th POST of this call; `get_passwd` is
evaluated (building the form data) before each POST, also on attempts that
then raise. -/
def login_loop (safe_mode : Bool) (gp : Nat → String) (posts : Nat → ReqResult) :
    Nat → Nat → Option String → Nat → LoginOut
  | _, 0, cache, prompts => ⟨0, none, cache, prompts⟩
  | k, retries + 1, cache, prompts =>
    let pw := get_passwd safe_mode gp cache prompts
    match posts k with
    | .ok resp => ⟨retries + 1, some resp, pw.cache, pw.prompts⟩
    | .connErr => login_loop safe_mode gp posts (k + 1) retries pw.cache pw.prompts

/-- The return expression of `Login._login`:
`retries > 0 and not response.url.endswith("index.php")` (the `and`
short-circuits, so `response` is only dereferenced when `retries > 0`). -/
def login_return (retries : Nat) (response : Option Response) : Bool :=
  if retries = 0 then false
  else
    match response with
    | some r => !(strEndswith r.url "index.php")
    | none => false

/-- Result of one full `Login._login` call. -/
structure CallOut where
  ok : Bool
  cache : Option String
  prompts : Nat
deriving DecidableEq

/-- One call to `Login._login`: the local budget `retries = 5` is a fresh
local variable of every call; run the retry loop, then apply the return
expression. -/
def login_call (safe_mode : Bool) (gp : Nat → String) (posts : Nat → ReqResult)
    (cache : Option String) (prompts : Nat) : CallOut :=
  let out := login_loop safe_mode gp posts 0 5 cache prompts
  ⟨login_return out.retries out.response, out.cache, out.prompts⟩

/-- `Login._keepalive`: GET `online.php`; the result is
`not response.url.endswith("index.php")`, and a `ConnectionError` is caught
and returned as `False`. -/
def keepalive_check (res : ReqResult) : Bool :=
  match res with
  | .ok r => !(strEndswith r.url "index.php")
  | .connErr => false

/-- `Login._init_session`: one GET of `index.php`; a `ConnectionError`
exits the process with code 1, as does a status code other than 200;
otherwise execution continues (`none`).  The request is issued once, with
no retry. -/
def init_session (res : ReqResult) : Option Int :=
  match res with
  | .connErr => some 1
  | .ok r => if r.status_code ≠ 200 then some 1 else none

/-- Observable steps of the `while True` loop of `Login.execute`:
`poll b` is one `_keepalive` call returning `b`; `login b` is one
re-`_login` call returning `b`; `sleep` is `sleep(self.options.timeout)`,
the configured polling interval. -/
inductive Event where
  | poll : Bool → Event
  | login : Bool → Event
  | sleep : Event
deriving DecidableEq

/-- Result of running (a finite number of iterations of) the keep-alive
loop, and of `Login.execute` as a whole: the emitted step trace, the exit
code when `sys.exit` was reached (`none` while still looping), and the
final password cache and prompt count. -/
structure LoopOut where
  trace : List Event
  exitCode : Option Int
  cache : Option String
  prompts : Nat
deriving DecidableEq

/-- The `while True` loop of `Login.execute`, run for `fuel` iterations
(the code loops forever; `fuel` only truncates the observation).  Each
iteration calls `_keepalive`; on success it sleeps the configured timeout
and loops; on failure it calls `_login` once, exiting with code 0 when
that call fails.  `ka i` is the outcome of the `i`-th GET of `online.php`;
`posts j` the POST-outcome stream of the `j`-th re-login call. -/
def keepalive_loop (safe_mode : Bool) (gp : Nat → String)
    (posts : Nat → Nat → ReqResult) (ka : Nat → ReqResult) :
    Nat → Nat → Nat → Option String → Nat → LoopOut
  | 0, _, _, cache, prompts => ⟨[], none, cache, prompts⟩
  | fuel + 1, i, j, cache, prompts =>
    if keepalive_check (ka i) then
      let rest := keepalive_loop safe_mode gp posts ka fuel (i + 1) j cache prompts
      ⟨.poll true :: .sleep :: rest.trace, rest.exitCode, rest.cache, rest.prompts⟩
    else
      let lg := login_call safe_mode gp (posts j) cache prompts
      if lg.ok then
        let rest := keepalive_loop safe_mode gp posts ka fuel (i + 1) (j + 1) lg.cache lg.prompts
        ⟨.poll false :: .login true :: rest.trace, rest.exitCode, rest.cache, rest.prompts⟩
      else
        ⟨[.poll false, .login false], some 0, lg.cache, lg.prompts⟩

/-- `Login.execute`, starting from `Login.init`'s `self.password = None`
and zero prompts issued: `_init_session` (may exit 1), then the initial
`_login` call (exit −1 on failure), then the keep-alive loop.
`init_res` is the outcome of the warm-up GET, `posts0` the POST-outcome
stream of the initial login call. -/
def execute_run (safe_mode : Bool) (gp : Nat → String) (init_res : ReqResult)
    (posts0 : Nat → ReqResult) (posts : Nat → Nat → ReqResult)
    (ka : Nat → ReqResult) (fuel : Nat) : LoopOut :=
  match init_session init_res with
  | some c => ⟨[], some c, none, 0⟩
  | none =>
    let lg := login_call safe_mode gp posts0 none 0
    if lg.ok then
      keepalive_loop safe_mode gp posts ka fuel 0 0 lg.cache lg.prompts
    else
      ⟨[], some (-1), lg.cache, lg.prompts⟩

/-- `Login.shutdown` / `Login._logout`.  `res n` is the outcome of the
`n`-th GET of `logout.php` the run would issue; the first component counts
the requests actually issued (the code issues exactly one, with no retry).
`_logout` has no exception handler, so a `ConnectionError` propagates out
of `shutdown` (`Except.error ()`); otherwise `_logout` returns
`status_code == 200` and `shutdown` logs the corresponding message and
returns normally. -/
def shutdown_run (res : Nat → ReqResult) : Nat × Except Unit Bool :=
  match res 0 with
  | .connErr => (1, .error ())
  | .ok r => (1, .ok (decide (r.status_code = 200)))

/-- `check_executable`: walk the `PATH` entries in order and report whether
`"%s/%s" % (path, progname)` exists for one of them. -/
def check_executable (file_exists : String → Bool) :
    List String → String → Bool
  | [], _ => false
  | p :: rest, progname =>
    if file_exists (p ++ "/" ++ progname) then true
    else check_executable file_exists rest progname

/-- The options of the `termserv` verb consumed by `RemoteDesktop`. -/
structure RDOptions where
  username : String
  domain : String
  server : String
  geometry : String
deriving DecidableEq

/-- `RemoteDesktop.init`: when `rdesktop` is not found on the `PATH`, a
fatal-severity diagnostic is logged; the constructor does not exit.
Returns whether the diagnostic was logged. -/
def remotedesktop_init (file_exists : String → Bool) (path_entries : List String) : Bool :=
  !(check_executable file_exists path_entries "rdesktop")

/-- The argument vector `RemoteDesktop.execute` passes to `subprocess.Popen`. -/
def rdesktop_args (o : RDOptions) : List String :=
  ["rdesktop", "-u", o.domain ++ "\\" ++ o.username, "-x", "l", "-a", "16",
   "-g", o.geometry, o.server]

/-- A run of the `RemoteDesktop` action: construction (logging its
diagnostic) followed by `execute`, which spawns `rdesktop` with the
constructed arguments unconditionally.  Returns (diagnostic logged,
argv spawned). -/
def remotedesktop_run (file_exists : String → Bool) (path_entries : List String)
    (o : RDOptions) : Bool × List String :=
  (remotedesktop_init file_exists path_entries, rdesktop_args o)

/-- The parsed options of the `login` verb: `username` positional,
`-p` (`--password`) defaulting to `None`, `-s` (`--server`), `--safe-mode`
(`-t` (`--timeout`) is a float consumed only by `sleep` and is represented
by the `Event.sleep` step). -/
structure LoginOptions where
  username : String
  password : Option String
  server : String
  safe_mode : Bool
deriving DecidableEq

/-- `Login.init`: `self.password = None` — the parsed `-p` (`--password`)
value is never read. -/
def login_init (_o : LoginOptions) : Option String := none

/-- The path component of an absolute `https://` URL: everything from the
first `/` after the host.  This is spec-side vocabulary ("the response
URL's path"), defined for comparison with the code's suffix test. -/
def specUrlPath (s : String) : String :=
  String.mk ((s.data.drop 8).dropWhile (fun c => c ≠ '/'))

/-!  Helper lemmas about the retry loop of `Login._login`. -/

/-- Skipping a block of `k` connection-error attempts: the retry loop from
budget `n` continues as the loop from budget `n - k` at attempt `i + k`
(with some intermediate password cache and prompt count). -/
theorem login_loop_skip (safe_mode : Bool) (gp : Nat → String) (posts : Nat → ReqResult) :
    ∀ (k i n : Nat) (cache : Option String) (prompts : Nat), k ≤ n →
    (∀ m, m < k → posts (i + m) = .connErr) →
    ∃ c' p', login_loop safe_mode gp posts i n cache prompts
           = login_loop safe_mode gp posts (i + k) (n - k) c' p' := by
  intro k
  induction k with
  | zero => intro i n c p _ _; exact ⟨c, p, by simp⟩
  | succ k ih =>
    intro i n c p hkn hconn
    obtain ⟨n', rfl⟩ : ∃ n', n = n' + 1 := ⟨n - 1, by omega⟩
    have h0 : posts i = .connErr := by simpa using hconn 0 (by omega)
    have step : login_loop safe_mode gp posts i (n' + 1) c p
        = login_loop safe_mode gp posts (i + 1) n'
            (get_passwd safe_mode gp c p).cache (get_passwd safe_mode gp c p).prompts := by
      simp only [login_loop, h0]
    rw [step]
    obtain ⟨c', p', heq⟩ := ih (i + 1) n'
      (get_passwd safe_mode gp c p).cache (get_passwd safe_mode gp c p).prompts
      (by omega)
      (fun m hm => by
        have h := hconn (m + 1) (by omega)
        have harith : i + 1 + m = i + (m + 1) := by omega
        rw [harith]; exact h)
    refine ⟨c', p', ?_⟩
    rw [heq, show i + 1 + k = i + (k + 1) from by omega,
        show n' - k = n' + 1 - (k + 1) from by omega]

/-- The safe-mode variant of `login_loop_skip`, tracking the state exactly:
each skipped attempt prompts once and leaves the cache alone. -/
theorem login_loop_safe_skip (gp : Nat → String) (posts : Nat → ReqResult) :
    ∀ (k i n : Nat) (cache : Option String) (prompts : Nat), k ≤ n →
    (∀ m, m < k → posts (i + m) = .connErr) →
    login_loop true gp posts i n cache prompts
      = login_loop true gp posts (i + k) (n - k) cache (prompts + k) := by
  intro k
  induction k with
  | zero => intro i n c p _ _; simp
  | succ k ih =>
    intro i n c p hkn hconn
    obtain ⟨n', rfl⟩ : ∃ n', n = n' + 1 := ⟨n - 1, by omega⟩
    have h0 : posts i = .connErr := by simpa using hconn 0 (by omega)
    have step : login_loop true gp posts i (n' + 1) c p
        = login_loop true gp posts (i + 1) n' c (p + 1) := by
      simp only [login_loop, h0, get_passwd, if_pos]
    rw [step, ih (i + 1) n' c (p + 1) (by omega)
      (fun m hm => by
        have h := hconn (m + 1) (by omega)
        have harith : i + 1 + m = i + (m + 1) := by omega
        rw [harith]; exact h),
      show i + 1 + k = i + (k + 1) from by omega,
      show n' - k = n' + 1 - (k + 1) from by omega,
      show p + 1 + k = p + (k + 1) from by omega]

/-- The loop stores no response exactly when it exhausted the budget. -/
theorem login_loop_response_none (safe_mode : Bool) (gp : Nat → String)
    (posts : Nat → ReqResult) :
    ∀ (n k : Nat) (cache : Option String) (prompts : Nat),
    (login_loop safe_mode gp posts k n cache prompts).response = none ↔
    (login_loop safe_mode gp posts k n cache prompts).retries = 0 := by
  intro n
  induction n with
  | zero => intro k c p; simp [login_loop]
  | succ n ih =>
    intro k c p
    cases h : posts k with
    | connErr =>
      simp only [login_loop, h]
      exact ih (k + 1) _ _
    | ok r => simp [login_loop, h]

/-- C1 (as frozen, refuted at k = 5): with the first five POST attempts
raising connection errors and a sixth outcome available that would carry a
response whose final URL does not end at the landing page, `_login`
nevertheless returns failure — the loop exits after five attempts with the
budget exhausted and never reaches the sixth outcome, so "k ≤ 5 … returns
success" is false at k = 5. -/
theorem C1_counterexample :
    (fun i => if i < 5 then ReqResult.connErr
              else .ok ⟨"https://zerberus.ba-horb.de/start.php", 200⟩ : Nat → ReqResult) 0
        = .connErr ∧
    (fun i => if i < 5 then ReqResult.connErr
              else .ok ⟨"https://zerberus.ba-horb.de/start.php", 200⟩ : Nat → ReqResult) 4
        = .connErr ∧
    (fun i => if i < 5 then ReqResult.connErr
              else .ok ⟨"https://zerberus.ba-horb.de/start.php", 200⟩ : Nat → ReqResult) 5
        = .ok ⟨"https://zerberus.ba-horb.de/start.php", 200⟩ ∧
    strEndswith "https://zerberus.ba-horb.de/start.php" "index.php" = false ∧
    (login_call false (fun _ => "pw")
      (fun i => if i < 5 then ReqResult.connErr
                else .ok ⟨"https://zerberus.ba-horb.de/start.php", 200⟩)
      none 0).ok = false := by
  decide

/-- C1 (amended): for every single `_login` call in which the first
`k ≤ 4` POST attempts raise connection errors and the next attempt
receives a response whose final URL does not end at the landing page, the
call returns success having consumed only the `k` failed attempts from its
budget (the remaining budget is `5 - k`); the budget is a fresh local
variable of every call, so it holds for any incoming cache and prompt
state. -/
theorem C1_theorem (safe_mode : Bool) (gp : Nat → String) (posts : Nat → ReqResult)
    (cache : Option String) (prompts : Nat) (k : Nat) (r : Response)
    (hk : k < 5) (hconn : ∀ m, m < k → posts m = .connErr) (hok : posts k = .ok r)
    (hurl : strEndswith r.url "index.php" = false) :
    (login_call safe_mode gp posts cache prompts).ok = true ∧
    (login_loop safe_mode gp posts 0 5 cache prompts).retries = 5 - k := by
  obtain ⟨c', p', heq⟩ := login_loop_skip safe_mode gp posts k 0 5 cache prompts hk.le
    (fun m hm => by simpa using hconn m hm)
  have h5 : 5 - k = (4 - k) + 1 := by omega
  have heq2 : login_loop safe_mode gp posts 0 5 cache prompts
      = ⟨(4 - k) + 1, some r, (get_passwd safe_mode gp c' p').cache,
         (get_passwd safe_mode gp c' p').prompts⟩ := by
    rw [heq, show (0 : Nat) + k = k from by omega, h5]
    simp only [login_loop, hok]
  refine ⟨?_, ?_⟩
  · simp [login_call, heq2, login_return, hurl]
  · rw [heq2]; show 4 - k + 1 = 5 - k; omega

/-- Witness for C1: two connection errors, then a response ending away
from the landing page; the call succeeds with budget 3 left. -/
theorem C1_witness :
    (login_call false (fun _ => "pw")
      (fun i => if i < 2 then ReqResult.connErr
                else .ok ⟨"https://zerberus.ba-horb.de/start.php", 200⟩)
      none 0).ok = true ∧
    (login_loop false (fun _ => "pw")
      (fun i => if i < 2 then ReqResult.connErr
                else .ok ⟨"https://zerberus.ba-horb.de/start.php", 200⟩)
      0 5 none 0).retries = 5 - 2 :=
  C1_theorem false (fun _ => "pw")
    (fun i => if i < 2 then ReqResult.connErr
              else .ok ⟨"https://zerberus.ba-horb.de/start.php", 200⟩)
    none 0 2 ⟨"https://zerberus.ba-horb.de/start.php", 200⟩
    (by decide)
    (fun m hm => by interval_cases m <;> decide)
    (by decide) (by decide)

/-- A `_login` call fails exactly when the budget was exhausted by
connection errors or the response it received has a final URL ending with
`"index.php"`. -/
theorem login_call_fail_iff (safe_mode : Bool) (gp : Nat → String)
    (posts : Nat → ReqResult) (cache : Option String) (prompts : Nat) :
    (login_call safe_mode gp posts cache prompts).ok = false ↔
    ((login_loop safe_mode gp posts 0 5 cache prompts).retries = 0 ∨
     ∃ r, (login_loop safe_mode gp posts 0 5 cache prompts).response = some r ∧
          strEndswith r.url "index.php" = true) := by
  have hnone := login_loop_response_none safe_mode gp posts 5 0 cache prompts
  cases hret : (login_loop safe_mode gp posts 0 5 cache prompts).retries with
  | zero =>
    simp only [login_call, login_return, hret, if_pos rfl]
    simp
  | succ m =>
    have hresp : (login_loop safe_mode gp posts 0 5 cache prompts).response ≠ none := by
      intro h
      rw [hnone] at h
      omega
    obtain ⟨r, hr⟩ : ∃ r, (login_loop safe_mode gp posts 0 5 cache prompts).response = some r := by
      cases h : (login_loop safe_mode gp posts 0 5 cache prompts).response with
      | none => exact absurd h hresp
      | some r => exact ⟨r, rfl⟩
    simp only [login_call, login_return, hret, hr]
    constructor
    · intro h
      refine Or.inr ⟨r, rfl, ?_⟩
      simpa using h
    · rintro (h | ⟨r', hr', hurl⟩)
      · omega
      · cases hr'
        simpa using hurl

/-- The keep-alive loop either is still running (`none`) or performed
`sys.exit(0)`; it never produces any other exit code. -/
theorem keepalive_loop_exit_cases (safe_mode : Bool) (gp : Nat → String)
    (posts : Nat → Nat → ReqResult) (ka : Nat → ReqResult) :
    ∀ (fuel i j : Nat) (cache : Option String) (prompts : Nat),
    (keepalive_loop safe_mode gp posts ka fuel i j cache prompts).exitCode = none ∨
    (keepalive_loop safe_mode gp posts ka fuel i j cache prompts).exitCode = some 0 := by
  intro fuel
  induction fuel with
  | zero => intro i j c p; left; rfl
  | succ fuel ih =>
    intro i j c p
    by_cases hka : keepalive_check (ka i) = true
    · simpa only [keepalive_loop, hka, if_pos] using ih (i + 1) j c p
    · rw [Bool.not_eq_true] at hka
      by_cases hlg : (login_call safe_mode gp (posts j) c p).ok = true
      · simpa only [keepalive_loop, hka, Bool.false_eq_true, if_neg, hlg, if_pos,
          not_false_iff] using ih (i + 1) (j + 1) _ _
      · rw [Bool.not_eq_true] at hlg
        simp [keepalive_loop, hka, hlg]

/-- C2 (as frozen, refuted): with the warm-up succeeding and every login
POST raising a connection error, the retry budget is exhausted, the login
call stores no response at all — so no "final login attempt's response URL"
exists, let alone one whose path equals the landing-page path — and the
process still exits with code −1. -/
theorem C2_counterexample :
    (execute_run false (fun _ => "pw")
      (.ok ⟨"https://zerberus.ba-horb.de/index.php", 200⟩)
      (fun _ => .connErr) (fun _ _ => .connErr) (fun _ => .connErr) 0).exitCode
      = some (-1) ∧
    (login_loop false (fun _ => "pw") (fun _ => .connErr) 0 5 none 0).response = none := by
  decide

/-- C2 (amended): the login process exits with code −1 exactly when the
warm-up request succeeds and the initial `_login` call fails, and that
call fails exactly when its five-attempt budget is exhausted by connection
errors or the response it received has a final URL ending with
`"index.php"`.  (Re-login failure inside the keep-alive loop exits with 0,
warm-up failure with 1.) -/
theorem C2_theorem (safe_mode : Bool) (gp : Nat → String) (init_res : ReqResult)
    (posts0 : Nat → ReqResult) (posts : Nat → Nat → ReqResult)
    (ka : Nat → ReqResult) (fuel : Nat) :
    ((execute_run safe_mode gp init_res posts0 posts ka fuel).exitCode = some (-1) ↔
      (init_session init_res = none ∧
       (login_call safe_mode gp posts0 none 0).ok = false)) ∧
    ((login_call safe_mode gp posts0 none 0).ok = false ↔
      ((login_loop safe_mode gp posts0 0 5 none 0).retries = 0 ∨
       ∃ r, (login_loop safe_mode gp posts0 0 5 none 0).response = some r ∧
            strEndswith r.url "index.php" = true)) := by
  refine ⟨?_, login_call_fail_iff safe_mode gp posts0 none 0⟩
  cases hinit : init_session init_res with
  | some c =>
    have hc : c = 1 := by
      cases init_res with
      | connErr => simpa [init_session] using hinit.symm
      | ok r =>
        by_cases hs : r.status_code = 200
        · simp [init_session, hs] at hinit
        · simpa [init_session, hs] using hinit.symm
    subst hc
    simp [execute_run, hinit]
  | none =>
    by_cases hlg : (login_call safe_mode gp posts0 none 0).ok = true
    · simp only [execute_run, hinit, hlg, if_pos]
      rcases keepalive_loop_exit_cases safe_mode gp posts ka fuel 0 0
          (login_call safe_mode gp posts0 none 0).cache
          (login_call safe_mode gp posts0 none 0).prompts with h | h <;>
        simp [h, hlg]
    · rw [Bool.not_eq_true] at hlg
      simp [execute_run, hinit, hlg]

/-- C3 (confirmed): in every run of the keep-alive loop, (a) each failed
poll is immediately followed by a re-login attempt, (b) every re-login
attempt immediately follows a failed poll (so there is never more than one
re-login per failure), and (c) when a re-login fails it is the last step of
the trace — no further polls or retries — and the process exits with
status 0. -/
theorem C3_theorem (safe_mode : Bool) (gp : Nat → String)
    (posts : Nat → Nat → ReqResult) (ka : Nat → ReqResult)
    (fuel i j : Nat) (cache : Option String) (prompts : Nat) :
    (∀ n, (keepalive_loop safe_mode gp posts ka fuel i j cache prompts).trace.get? n
          = some (.poll false) →
        ∃ b, (keepalive_loop safe_mode gp posts ka fuel i j cache prompts).trace.get? (n + 1)
          = some (.login b)) ∧
    (∀ n b, (keepalive_loop safe_mode gp posts ka fuel i j cache prompts).trace.get? n
          = some (.login b) →
        ∃ m, n = m + 1 ∧
          (keepalive_loop safe_mode gp posts ka fuel i j cache prompts).trace.get? m
            = some (.poll false)) ∧
    (∀ n, (keepalive_loop safe_mode gp posts ka fuel i j cache prompts).trace.get? n
          = some (.login false) →
        (keepalive_loop safe_mode gp posts ka fuel i j cache prompts).trace.length = n + 1 ∧
        (keepalive_loop safe_mode gp posts ka fuel i j cache prompts).exitCode = some 0) := by
  induction fuel generalizing i j cache prompts with
  | zero =>
    refine ⟨?_, ?_, ?_⟩ <;> intro n <;> simp [keepalive_loop]
  | succ fuel ih =>
    by_cases hka : keepalive_check (ka i) = true
    · have hT : keepalive_loop safe_mode gp posts ka (fuel + 1) i j cache prompts
          = ⟨.poll true :: .sleep ::
              (keepalive_loop safe_mode gp posts ka fuel (i + 1) j cache prompts).trace,
             (keepalive_loop safe_mode gp posts ka fuel (i + 1) j cache prompts).exitCode,
             (keepalive_loop safe_mode gp posts ka fuel (i + 1) j cache prompts).cache,
             (keepalive_loop safe_mode gp posts ka fuel (i + 1) j cache prompts).prompts⟩ := by
        simp [keepalive_loop, hka]
      obtain ⟨H1, H2, H3⟩ := ih (i + 1) j cache prompts
      rw [hT]
      refine ⟨?_, ?_, ?_⟩
      · intro n hn
        cases n with
        | zero => simp at hn
        | succ n =>
          cases n with
          | zero => simp at hn
          | succ n =>
            simp only [List.get?_cons_succ] at hn ⊢
            exact H1 n hn
      · intro n b hn
        cases n with
        | zero => simp at hn
        | succ n =>
          cases n with
          | zero => simp at hn
          | succ n =>
            simp only [List.get?_cons_succ] at hn
            obtain ⟨m, rfl, hm⟩ := H2 n b hn
            refine ⟨m + 2, by omega, ?_⟩
            simpa only [List.get?_cons_succ] using hm
      · intro n hn
        cases n with
        | zero => simp at hn
        | succ n =>
          cases n with
          | zero => simp at hn
          | succ n =>
            simp only [List.get?_cons_succ] at hn
            obtain ⟨hlen, hexit⟩ := H3 n hn
            exact ⟨by simp [hlen], hexit⟩
    · rw [Bool.not_eq_true] at hka
      by_cases hlg : (login_call safe_mode gp (posts j) cache prompts).ok = true
      · have hT : keepalive_loop safe_mode gp posts ka (fuel + 1) i j cache prompts
            = ⟨.poll false :: .login true ::
                (keepalive_loop safe_mode gp posts ka fuel (i + 1) (j + 1)
                  (login_call safe_mode gp (posts j) cache prompts).cache
                  (login_call safe_mode gp (posts j) cache prompts).prompts).trace,
               (keepalive_loop safe_mode gp posts ka fuel (i + 1) (j + 1)
                  (login_call safe_mode gp (posts j) cache prompts).cache
                  (login_call safe_mode gp (posts j) cache prompts).prompts).exitCode,
               (keepalive_loop safe_mode gp posts ka fuel (i + 1) (j + 1)
                  (login_call safe_mode gp (posts j) cache prompts).cache
                  (login_call safe_mode gp (posts j) cache prompts).prompts).cache,
               (keepalive_loop safe_mode gp posts ka fuel (i + 1) (j + 1)
                  (login_call safe_mode gp (posts j) cache prompts).cache
                  (login_call safe_mode gp (posts j) cache prompts).prompts).prompts⟩ := by
          simp [keepalive_loop, hka, hlg]
        obtain ⟨H1, H2, H3⟩ := ih (i + 1) (j + 1)
          (login_call safe_mode gp (posts j) cache prompts).cache
          (login_call safe_mode gp (posts j) cache prompts).prompts
        rw [hT]
        refine ⟨?_, ?_, ?_⟩
        · intro n hn
          cases n with
          | zero => exact ⟨true, by simp⟩
          | succ n =>
            cases n with
            | zero => simp at hn
            | succ n =>
              simp only [List.get?_cons_succ] at hn ⊢
              exact H1 n hn
        · intro n b hn
          cases n with
          | zero => simp at hn
          | succ n =>
            cases n with
            | zero => exact ⟨0, rfl, by simp⟩
            | succ n =>
              simp only [List.get?_cons_succ] at hn
              obtain ⟨m, rfl, hm⟩ := H2 n b hn
              refine ⟨m + 2, by omega, ?_⟩
              simpa only [List.get?_cons_succ] using hm
        · intro n hn
          cases n with
          | zero => simp at hn
          | succ n =>
            cases n with
            | zero => simp at hn
            | succ n =>
              simp only [List.get?_cons_succ] at hn
              obtain ⟨hlen, hexit⟩ := H3 n hn
              exact ⟨by simp [hlen], hexit⟩
      · rw [Bool.not_eq_true] at hlg
        have hT : keepalive_loop safe_mode gp posts ka (fuel + 1) i j cache prompts
            = ⟨[.poll false, .login false], some 0,
               (login_call safe_mode gp (posts j) cache prompts).cache,
               (login_call safe_mode gp (posts j) cache prompts).prompts⟩ := by
          simp [keepalive_loop, hka, hlg]
        rw [hT]
        refine ⟨?_, ?_, ?_⟩
        · intro n hn
          cases n with
          | zero => exact ⟨false, by simp⟩
          | succ n =>
            cases n with
            | zero => simp at hn
            | succ n => simp at hn
        · intro n b hn
          cases n with
          | zero => simp at hn
          | succ n =>
            cases n with
            | zero => exact ⟨0, rfl, by simp⟩
            | succ n => simp at hn
        · intro n hn
          cases n with
          | zero => simp at hn
          | succ n =>
            cases n with
            | zero => simp
            | succ n => simp at hn

/-- Witness for C3: with the first poll failing and the single re-login
failing, the trace is exactly a failed poll then a failed re-login, the
loop stops there, and the process exits with status 0. -/
theorem C3_witness :
    (keepalive_loop false (fun _ => "pw") (fun _ _ => .connErr) (fun _ => .connErr)
        3 0 0 none 0).trace.length = 1 + 1 ∧
    (keepalive_loop false (fun _ => "pw") (fun _ _ => .connErr) (fun _ => .connErr)
        3 0 0 none 0).exitCode = some 0 :=
  (C3_theorem false (fun _ => "pw") (fun _ _ => .connErr) (fun _ => .connErr)
    3 0 0 none 0).2.2 1 (by decide)

/-- C4 (as frozen, refuted): the code's failure test is a suffix test on
the whole final URL string, not equality of its path with the landing-page
path: the final URL `https://zerberus.ba-horb.de/myindex.php` has path
`/myindex.php`, different from the landing page's `/index.php`, yet both
the keep-alive check and the login return expression classify it as
failure. -/
theorem C4_counterexample :
    keepalive_check (.ok ⟨"https://zerberus.ba-horb.de/myindex.php", 200⟩) = false ∧
    login_return 5 (some ⟨"https://zerberus.ba-horb.de/myindex.php", 200⟩) = false ∧
    specUrlPath "https://zerberus.ba-horb.de/myindex.php" ≠
      specUrlPath (build_url "zerberus.ba-horb.de" "index.php") := by
  decide

/-- C4 (amended): both checks consult only the response's final URL, and
the sole failure condition on a received response is that the URL string
ends with `"index.php"` (for the keep-alive check a connection error
additionally counts as failure; for the login check, a non-exhausted
budget is additionally required): no other response property affects the
decision. -/
theorem C4_theorem :
    (∀ r : Response, keepalive_check (.ok r) = !(strEndswith r.url "index.php")) ∧
    keepalive_check .connErr = false ∧
    (∀ (retries : Nat) (r : Response),
      login_return (retries + 1) (some r) = !(strEndswith r.url "index.php")) := by
  refine ⟨fun r => rfl, rfl, fun retries r => ?_⟩
  simp [login_return]

/-- C5 (confirmed): if the warm-up request raises a connection error or
returns a status other than 200, `execute` exits immediately with status 1,
with an empty step trace — no retry is made and the keep-alive loop is
never entered. -/
theorem C5_theorem (safe_mode : Bool) (gp : Nat → String) (init_res : ReqResult)
    (posts0 : Nat → ReqResult) (posts : Nat → Nat → ReqResult)
    (ka : Nat → ReqResult) (fuel : Nat)
    (h : init_res = .connErr ∨ ∃ r, init_res = .ok r ∧ r.status_code ≠ 200) :
    execute_run safe_mode gp init_res posts0 posts ka fuel = ⟨[], some 1, none, 0⟩ := by
  rcases h with h | ⟨r, rfl, hs⟩
  · subst h; rfl
  · simp [execute_run, init_session, hs]

/-- Witness for C5: an unreachable server at startup exits with status 1
and an empty trace. -/
theorem C5_witness :
    execute_run false (fun _ => "pw") .connErr (fun _ => .connErr)
      (fun _ _ => .connErr) (fun _ => .connErr) 3 = ⟨[], some 1, none, 0⟩ :=
  C5_theorem false (fun _ => "pw") .connErr (fun _ => .connErr)
    (fun _ _ => .connErr) (fun _ => .connErr) 3 (Or.inl rfl)

/-- C7 (as frozen, refuted): a connection error during the logout request
propagates out of `shutdown` (`_logout` has no exception handler), so a
shutdown failure is not merely logged — `shutdown` can raise. -/
theorem C7_counterexample :
    (shutdown_run (fun _ => .connErr)).2 = .error () := rfl

/-- C7 (amended): shutdown issues exactly one logout request and never
retries it; a received response is handled without raising (a non-200
status is only logged), but a connection error during the request
propagates out of `shutdown`. -/
theorem C7_theorem (res : Nat → ReqResult) :
    (shutdown_run res).1 = 1 ∧
    (∀ r, res 0 = .ok r → (shutdown_run res).2 = .ok (decide (r.status_code = 200))) ∧
    (res 0 = .connErr → (shutdown_run res).2 = .error ()) := by
  refine ⟨?_, ?_, ?_⟩
  · cases h : res 0 <;> simp [shutdown_run, h]
  · intro r h; simp [shutdown_run, h]
  · intro h; simp [shutdown_run, h]

/-- Witness for C7: a logout answered with status 200 completes normally
with a successful result. -/
theorem C7_witness :
    (shutdown_run (fun _ => .ok ⟨"https://zerberus.ba-horb.de/logout.php", 200⟩)).2
      = .ok (decide ((200 : Nat) = 200)) :=
  (C7_theorem (fun _ => .ok ⟨"https://zerberus.ba-horb.de/logout.php", 200⟩)).2.1
    ⟨"https://zerberus.ba-horb.de/logout.php", 200⟩ rfl

/-- C9 (confirmed): when `rdesktop` is not discoverable on the `PATH`, the
RemoteDesktop action logs its fatal diagnostic at construction but does not
abort: `execute` still spawns the process with the constructed argument
vector. -/
theorem C9_theorem (file_exists : String → Bool) (path_entries : List String)
    (o : RDOptions)
    (h : check_executable file_exists path_entries "rdesktop" = false) :
    remotedesktop_run file_exists path_entries o = (true, rdesktop_args o) := by
  simp [remotedesktop_run, remotedesktop_init, h]

/-- Witness for C9: an empty filesystem view of a one-entry `PATH`. -/
theorem C9_witness :
    remotedesktop_run (fun _ => false) ["/usr/bin"]
      ⟨"user", "ba-horb.de", "termserv.ba-horb.de", "1024x768"⟩
    = (true, rdesktop_args ⟨"user", "ba-horb.de", "termserv.ba-horb.de", "1024x768"⟩) :=
  C9_theorem (fun _ => false) ["/usr/bin"]
    ⟨"user", "ba-horb.de", "termserv.ba-horb.de", "1024x768"⟩ (by decide)

/-- C10 (confirmed): whatever `-p` value the parsed options carry,
`Login.init` starts the password cache empty, and the first credential
retrieval (in either mode) issues exactly one interactive prompt and
returns the prompted value. -/
theorem C10_theorem (o : LoginOptions) (safe_mode : Bool) (gp : Nat → String) :
    login_init o = none ∧
    (get_passwd safe_mode gp (login_init o) 0).prompts = 1 ∧
    (get_passwd safe_mode gp (login_init o) 0).value = gp 0 := by
  refine ⟨rfl, ?_, ?_⟩ <;> cases safe_mode <;> simp [get_passwd, login_init]

/-- Non-safe-mode prompt invariant for one retrieval: at most one prompt
has been issued, and none before the cache is filled. -/
theorem get_passwd_nonsafe_inv (gp : Nat → String) (cache : Option String)
    (prompts : Nat) (h1 : prompts ≤ 1) (h2 : cache = none → prompts = 0) :
    (get_passwd false gp cache prompts).prompts ≤ 1 ∧
    ((get_passwd false gp cache prompts).cache = none →
      (get_passwd false gp cache prompts).prompts = 0) := by
  cases cache with
  | none =>
    have h0 : prompts = 0 := h2 rfl
    subst h0
    simp [get_passwd]
  | some q =>
    refine ⟨?_, ?_⟩
    · simpa [get_passwd] using h1
    · simp [get_passwd]

/-- Non-safe-mode prompt invariant through the `_login` retry loop. -/
theorem login_loop_nonsafe_inv (gp : Nat → String) (posts : Nat → ReqResult) :
    ∀ (n k : Nat) (cache : Option String) (prompts : Nat),
    prompts ≤ 1 → (cache = none → prompts = 0) →
    (login_loop false gp posts k n cache prompts).prompts ≤ 1 ∧
    ((login_loop false gp posts k n cache prompts).cache = none →
      (login_loop false gp posts k n cache prompts).prompts = 0) := by
  intro n
  induction n with
  | zero => intro k c p h1 h2; simpa [login_loop] using ⟨h1, h2⟩
  | succ n ih =>
    intro k c p h1 h2
    obtain ⟨hp1, hp2⟩ := get_passwd_nonsafe_inv gp c p h1 h2
    cases h : posts k with
    | ok r => simpa [login_loop, h] using ⟨hp1, hp2⟩
    | connErr =>
      simp only [login_loop, h]
      exact ih (k + 1) _ _ hp1 hp2

/-- Non-safe-mode prompt invariant through one `_login` call. -/
theorem login_call_nonsafe_inv (gp : Nat → String) (posts : Nat → ReqResult)
    (cache : Option String) (prompts : Nat)
    (h1 : prompts ≤ 1) (h2 : cache = none → prompts = 0) :
    (login_call false gp posts cache prompts).prompts ≤ 1 ∧
    ((login_call false gp posts cache prompts).cache = none →
      (login_call false gp posts cache prompts).prompts = 0) :=
  login_loop_nonsafe_inv gp posts 5 0 cache prompts h1 h2

/-- Non-safe-mode prompt invariant through the keep-alive loop. -/
theorem keepalive_loop_nonsafe_inv (gp : Nat → String)
    (posts : Nat → Nat → ReqResult) (ka : Nat → ReqResult) :
    ∀ (fuel i j : Nat) (cache : Option String) (prompts : Nat),
    prompts ≤ 1 → (cache = none → prompts = 0) →
    (keepalive_loop false gp posts ka fuel i j cache prompts).prompts ≤ 1 := by
  intro fuel
  induction fuel with
  | zero => intro i j c p h1 _; simpa [keepalive_loop] using h1
  | succ fuel ih =>
    intro i j c p h1 h2
    by_cases hka : keepalive_check (ka i) = true
    · simp only [keepalive_loop, hka, if_pos]
      exact ih (i + 1) j c p h1 h2
    · rw [Bool.not_eq_true] at hka
      obtain ⟨hl1, hl2⟩ := login_call_nonsafe_inv gp (posts j) c p h1 h2
      by_cases hlg : (login_call false gp (posts j) c p).ok = true
      · simp only [keepalive_loop, hka, Bool.false_eq_true, if_neg, not_false_iff, hlg, if_pos]
        exact ih (i + 1) (j + 1) _ _ hl1 hl2
      · rw [Bool.not_eq_true] at hlg
        simpa [keepalive_loop, hka, hlg] using hl1

/-- C6 (as frozen, refuted): in safe mode a single `_login` call whose
first POST raises a connection error issues two prompts, not one per
authentication attempt. -/
theorem C6_counterexample :
    (login_call true (fun _ => "pw")
      (fun i => if i = 0 then ReqResult.connErr
                else .ok ⟨"https://zerberus.ba-horb.de/start.php", 200⟩)
      none 0).prompts = 2 := by
  decide

/-- C6 (amended): in safe mode the credential prompt is invoked once per
POST submission — a `_login` call whose first `k` attempts raise
connection errors before a response arrives prompts `k + 1` times — and
the entered passwords are never cached (the cache is unchanged).  In
non-safe mode a retrieval with a filled cache returns the cached value
without prompting, and over a whole `execute` run at most one prompt is
ever issued. -/
theorem C6_theorem (gp : Nat → String) :
    (∀ (posts : Nat → ReqResult) (cache : Option String) (prompts k : Nat) (r : Response),
      k < 5 → (∀ m, m < k → posts m = .connErr) → posts k = .ok r →
      (login_loop true gp posts 0 5 cache prompts).cache = cache ∧
      (login_loop true gp posts 0 5 cache prompts).prompts = prompts + (k + 1)) ∧
    (∀ (p : String) (prompts : Nat),
      get_passwd false gp (some p) prompts = ⟨p, some p, prompts⟩) ∧
    (∀ (init_res : ReqResult) (posts0 : Nat → ReqResult)
       (posts : Nat → Nat → ReqResult) (ka : Nat → ReqResult) (fuel : Nat),
      (execute_run false gp init_res posts0 posts ka fuel).prompts ≤ 1) := by
  refine ⟨?_, fun p prompts => rfl, ?_⟩
  · intro posts cache prompts k r hk hconn hok
    have hskip := login_loop_safe_skip gp posts k 0 5 cache prompts hk.le
      (fun m hm => by simpa using hconn m hm)
    have h5 : 5 - k = (4 - k) + 1 := by omega
    rw [hskip, show (0 : Nat) + k = k from by omega, h5]
    simp only [login_loop, hok, get_passwd, if_pos]
    exact ⟨by simp, by omega⟩
  · intro init_res posts0 posts ka fuel
    cases hinit : init_session init_res with
    | some c => simp [execute_run, hinit]
    | none =>
      obtain ⟨hl1, hl2⟩ := login_call_nonsafe_inv gp posts0 none 0 (by omega) (fun _ => rfl)
      by_cases hlg : (login_call false gp posts0 none 0).ok = true
      · simp only [execute_run, hinit, hlg, if_pos]
        exact keepalive_loop_nonsafe_inv gp posts ka fuel 0 0 _ _ hl1 hl2
      · rw [Bool.not_eq_true] at hlg
        simpa [execute_run, hinit, hlg] using hl1

/-- Witness for C6: in safe mode, one connection error followed by a
response means two prompts and an untouched (empty) cache. -/
theorem C6_witness :
    (login_loop true (fun _ => "pw")
      (fun i => if i < 1 then ReqResult.connErr
                else .ok ⟨"https://zerberus.ba-horb.de/start.php", 200⟩)
      0 5 none 0).cache = none ∧
    (login_loop true (fun _ => "pw")
      (fun i => if i < 1 then ReqResult.connErr
                else .ok ⟨"https://zerberus.ba-horb.de/start.php", 200⟩)
      0 5 none 0).prompts = 0 + (1 + 1) :=
  (C6_theorem (fun _ => "pw")).1
    (fun i => if i < 1 then ReqResult.connErr
              else .ok ⟨"https://zerberus.ba-horb.de/start.php", 200⟩)
    none 0 1 ⟨"https://zerberus.ba-horb.de/start.php", 200⟩
    (by decide)
    (fun m hm => by rw [Nat.lt_one_iff] at hm; subst hm; decide)
    (by decide)

/-- Indexing past two leading cons cells. -/
theorem get?_cons_cons {α : Type} (a b : α) (l : List α) (n : Nat) :
    (a :: b :: l).get? (n + 2) = l.get? n := rfl

/-- While every poll from index `i` on succeeds, the loop's trace is an
alternation of successful polls and sleeps of the configured timeout. -/
theorem keepalive_loop_allgood (safe_mode : Bool) (gp : Nat → String)
    (posts : Nat → Nat → ReqResult) (ka : Nat → ReqResult) :
    ∀ (fuel i j : Nat) (cache : Option String) (prompts : Nat),
    (∀ m, keepalive_check (ka (i + m)) = true) →
    ∀ k, k < fuel →
    (keepalive_loop safe_mode gp posts ka fuel i j cache prompts).trace.get? (2 * k)
      = some (.poll true) ∧
    (keepalive_loop safe_mode gp posts ka fuel i j cache prompts).trace.get? (2 * k + 1)
      = some .sleep := by
  intro fuel
  induction fuel with
  | zero => intro i j c p _ k hk; omega
  | succ fuel ih =>
    intro i j c p hall k hk
    have h0 : keepalive_check (ka i) = true := by simpa using hall 0
    have hT : keepalive_loop safe_mode gp posts ka (fuel + 1) i j c p
        = ⟨.poll true :: .sleep ::
            (keepalive_loop safe_mode gp posts ka fuel (i + 1) j c p).trace,
           (keepalive_loop safe_mode gp posts ka fuel (i + 1) j c p).exitCode,
           (keepalive_loop safe_mode gp posts ka fuel (i + 1) j c p).cache,
           (keepalive_loop safe_mode gp posts ka fuel (i + 1) j c p).prompts⟩ := by
      simp [keepalive_loop, h0]
    rw [hT]
    cases k with
    | zero => exact ⟨by simp, by simp⟩
    | succ k =>
      have hrec := ih (i + 1) j c p
        (fun m => by
          have h := hall (m + 1)
          have harith : i + (m + 1) = i + 1 + m := by omega
          rw [harith] at h; exact h)
        k (by omega)
      refine ⟨?_, ?_⟩
      · rw [show 2 * (k + 1) = 2 * k + 2 from by omega, get?_cons_cons]
        exact hrec.1
      · rw [show 2 * (k + 1) + 1 = (2 * k + 1) + 2 from by omega, get?_cons_cons]
        exact hrec.2

/-- C8 (confirmed): in the scenario where the first poll fails by being
redirected to the landing page and the single re-login succeeds, the loop
returns to polling: the trace is the failed poll, the successful re-login,
and then an alternation of successful polls each followed by the
`sleep(timeout)` of the configured interval. -/
theorem C8_theorem (safe_mode : Bool) (gp : Nat → String)
    (posts : Nat → Nat → ReqResult) (ka : Nat → ReqResult)
    (fuel : Nat) (cache : Option String) (prompts : Nat) (r0 : Response)
    (h0 : ka 0 = .ok r0) (hredir : strEndswith r0.url "index.php" = true)
    (hgood : ∀ i, keepalive_check (ka (i + 1)) = true)
    (hlg : (login_call safe_mode gp (posts 0) cache prompts).ok = true) :
    (keepalive_loop safe_mode gp posts ka (fuel + 1) 0 0 cache prompts).trace.get? 0
      = some (.poll false) ∧
    (keepalive_loop safe_mode gp posts ka (fuel + 1) 0 0 cache prompts).trace.get? 1
      = some (.login true) ∧
    (∀ k, k < fuel →
      (keepalive_loop safe_mode gp posts ka (fuel + 1) 0 0 cache prompts).trace.get?
          (2 * k + 2) = some (.poll true) ∧
      (keepalive_loop safe_mode gp posts ka (fuel + 1) 0 0 cache prompts).trace.get?
          (2 * k + 3) = some .sleep) := by
  have hka0 : keepalive_check (ka 0) = false := by
    simp [keepalive_check, h0, hredir]
  have hT : keepalive_loop safe_mode gp posts ka (fuel + 1) 0 0 cache prompts
      = ⟨.poll false :: .login true ::
          (keepalive_loop safe_mode gp posts ka fuel 1 1
            (login_call safe_mode gp (posts 0) cache prompts).cache
            (login_call safe_mode gp (posts 0) cache prompts).prompts).trace,
         (keepalive_loop safe_mode gp posts ka fuel 1 1
            (login_call safe_mode gp (posts 0) cache prompts).cache
            (login_call safe_mode gp (posts 0) cache prompts).prompts).exitCode,
         (keepalive_loop safe_mode gp posts ka fuel 1 1
            (login_call safe_mode gp (posts 0) cache prompts).cache
            (login_call safe_mode gp (posts 0) cache prompts).prompts).cache,
         (keepalive_loop safe_mode gp posts ka fuel 1 1
            (login_call safe_mode gp (posts 0) cache prompts).cache
            (login_call safe_mode gp (posts 0) cache prompts).prompts).prompts⟩ := by
    simp [keepalive_loop, hka0, hlg]
  rw [hT]
  refine ⟨by simp, by simp, ?_⟩
  intro k hk
  have hrec := keepalive_loop_allgood safe_mode gp posts ka fuel 1 1
    (login_call safe_mode gp (posts 0) cache prompts).cache
    (login_call safe_mode gp (posts 0) cache prompts).prompts
    (fun m => by
      have h := hgood m
      have harith : m + 1 = 1 + m := by omega
      rw [harith] at h; exact h)
    k hk
  exact ⟨by rw [get?_cons_cons]; exact hrec.1,
         by rw [show 2 * k + 3 = (2 * k + 1) + 2 from by omega, get?_cons_cons];
            exact hrec.2⟩

/-- Witness for C8: a first poll redirected to the landing page, a
successful re-login, and two further successful polls, each followed by a
sleep of the configured interval. -/
theorem C8_witness :
    (keepalive_loop false (fun _ => "pw")
        (fun _ _ => .ok ⟨"https://zerberus.ba-horb.de/start.php", 200⟩)
        (fun i => if i = 0 then .ok ⟨"https://zerberus.ba-horb.de/index.php", 200⟩
                  else .ok ⟨"https://zerberus.ba-horb.de/online.php", 200⟩)
        (2 + 1) 0 0 none 0).trace.get? 0 = some (.poll false) ∧
    (keepalive_loop false (fun _ => "pw")
        (fun _ _ => .ok ⟨"https://zerberus.ba-horb.de/start.php", 200⟩)
        (fun i => if i = 0 then .ok ⟨"https://zerberus.ba-horb.de/index.php", 200⟩
                  else .ok ⟨"https://zerberus.ba-horb.de/online.php", 200⟩)
        (2 + 1) 0 0 none 0).trace.get? 1 = some (.login true) ∧
    (∀ k, k < 2 →
      (keepalive_loop false (fun _ => "pw")
          (fun _ _ => .ok ⟨"https://zerberus.ba-horb.de/start.php", 200⟩)
          (fun i => if i = 0 then .ok ⟨"https://zerberus.ba-horb.de/index.php", 200⟩
                    else .ok ⟨"https://zerberus.ba-horb.de/online.php", 200⟩)
          (2 + 1) 0 0 none 0).trace.get? (2 * k + 2) = some (.poll true) ∧
      (keepalive_loop false (fun _ => "pw")
          (fun _ _ => .ok ⟨"https://zerberus.ba-horb.de/start.php", 200⟩)
          (fun i => if i = 0 then .ok ⟨"https://zerberus.ba-horb.de/index.php", 200⟩
                    else .ok ⟨"https://zerberus.ba-horb.de/online.php", 200⟩)
          (2 + 1) 0 0 none 0).trace.get? (2 * k + 3) = some .sleep) :=
  C8_theorem false (fun _ => "pw")
    (fun _ _ => .ok ⟨"https://zerberus.ba-horb.de/start.php", 200⟩)
    (fun i => if i = 0 then .ok ⟨"https://zerberus.ba-horb.de/index.php", 200⟩
              else .ok ⟨"https://zerberus.ba-horb.de/online.php", 200⟩)
    2 none 0 ⟨"https://zerberus.ba-horb.de/index.php", 200⟩
    (by decide) (by decide) (fun i => by simp [keepalive_check]; decide)
    (by decide)

end Dhbw
